import Mathlib

/-!
Verification of the in-memory data node of `taipy`
(`src/taipy/core/data/in_memory.py`), shallowly embedded in Lean 4.

The backend store `in_memory_storage` is a process-wide Python dict keyed by
data-node id; we model it as a function `DataNodeId → Option PyVal`, where
`Option.none` means the key is absent from the dict (Python `id in dict` is
`isSome`) and Python's `dict.get` default of `None` is `PyVal.none`.

The `DataNode` base class (`data_node.py`) and the version manager are not
part of the sources under verification; their behavior is modelled from the
specification where the in-memory node depends on them (see the doc comments
starting with `Modelled from the spec:`).
-/

namespace Taipy

/-- A Python value as stored in the in-memory backend. Values are of
unconstrained type in the source; this inductive covers the shapes exercised
by the claims, with `PyVal.none` standing for Python `None`. -/
inductive PyVal where
  | none
  | bool (b : Bool)
  | int (n : Int)
  | str (s : String)
  | list (xs : List PyVal)

/-- Python `v is None`: an identity check against the `None` singleton,
which in this model is exactly the `PyVal.none` constructor. -/
def PyVal.isNone : PyVal → Bool
  | PyVal.none => true
  | _ => false

abbrev DataNodeId := String

/-- The process-wide dict `in_memory_storage : Dict[str, Any]`.
`Option.none` at a key models absence of the key from the dict. -/
def Store := DataNodeId → Option PyVal

/-- Python `key in in_memory_storage`. -/
def Store.contains (s : Store) (id : DataNodeId) : Bool :=
  (s id).isSome

/-- Python `in_memory_storage.get(key)`: the stored value, or `None` when the
key is absent. -/
def Store.get (s : Store) (id : DataNodeId) : PyVal :=
  (s id).getD PyVal.none

/-- Python `in_memory_storage[key] = data`: unconditional assignment. -/
def Store.insert (s : Store) (id : DataNodeId) (v : PyVal) : Store :=
  fun k => if k = id then some v else s k

/-- The `Scope` enumeration from `taipy.config.common.scope`, opaque to the
core: used only as an attribute on the data node. -/
inductive Scope where
  | GLOBAL
  | CYCLE
  | SCENARIO
  | PIPELINE
deriving DecidableEq, Repr


/-- An `Edit` record: one log entry per write, holding a timestamp, an
optional job reference and free-form metadata. Timestamps are modelled as
naturals. -/
structure Edit where
  timestamp : Nat
  job_id : Option String
  metadata : List (String × PyVal)

/-- The attributes of a data node that the claims observe. `properties` is
the attribute map kept after the reserved `default_data` key was consumed by
construction. -/
structure DataNode where
  id : DataNodeId
  config_id : String
  scope : Scope
  name : Option String
  owner_id : Option String
  parent_ids : List String
  last_edit_date : Option Nat
  edits : List Edit
  version : String
  validity_period : Option Nat
  edit_in_progress : Bool
  properties : List (String × PyVal)

/-- Modelled from the spec: `DataNode.write` (the base class `data_node.py`
is not among the sources). "`write(data, **edit_metadata)` delegates storage
to the backend, appends a new Edit Record with the current timestamp and
supplied metadata, and updates `last_edit_date`"; for the in-memory node the
backend write is `in_memory_storage[self.id] = data`. `now` is the current
clock reading. -/
def DataNode.write (dn : DataNode) (store : Store) (data : PyVal)
    (metadata : List (String × PyVal)) (now : Nat) : DataNode × Store :=
  let store' := Store.insert store dn.id data
  let edit : Edit := ⟨now, Option.none, metadata⟩
  ({ dn with edits := dn.edits ++ [edit], last_edit_date := some now }, store')

/-- Python truthiness of the `version` argument (`str = None`): `None` and
the empty string are falsy, so `version or f()` falls through to `f()` for
both. -/
def strTruthy : Option String → Bool
  | Option.none => false
  | some s => decide (s ≠ "")

/-- Python `properties.pop("default_data", None)`: returns the value bound to
the key (or `None` when absent) together with the mapping with that key
removed. Dict keys are unique; the association list models the dict. -/
def popDefault (props : List (String × PyVal)) :
    PyVal × List (String × PyVal) :=
  match props.lookup "default_data" with
  | some v => (v, props.filter (fun p => p.1 ≠ "default_data"))
  | Option.none => (PyVal.none, props)

/-- The arguments of `InMemoryDataNode.__init__` as resolved values: the
Python defaults `properties=None` and `edits=None` become the empty list, and
the id generated by the base class when `id=None` is taken as an input here
(its generation lives outside the sources under verification). -/
structure InitArgs where
  config_id : String
  scope : Scope
  id : DataNodeId
  name : Option String
  owner_id : Option String
  parent_ids : List String
  last_edit_date : Option Nat
  edits : List Edit
  version : Option String
  validity_period : Option Nat
  edit_in_progress : Bool
  properties : List (String × PyVal)

/-- The result of constructing an `InMemoryDataNode`: the node, the backend
store after any seeding write, and how many times the external
version-resolution collaborator was invoked. -/
structure InitResult where
  node : DataNode
  store : Store
  versionCalls : Nat

/-- `InMemoryDataNode.__init__`. Pops `default_data` from `properties`,
resolves `version or _get_latest_version()` (the version manager is an
external collaborator modelled by its current report `latestVersion`),
builds the node, and seeds the backend via `self.write(default_value)` when
the popped default is not `None` and the store has no entry for the node's
id. -/
def InMemoryDataNode.init (args : InitArgs) (store : Store)
    (latestVersion : String) (now : Nat) : InitResult :=
  let p := popDefault args.properties
  let default_value := p.1
  let ver := if strTruthy args.version then args.version.getD "" else latestVersion
  let calls := if strTruthy args.version then 0 else 1
  let dn : DataNode :=
    { id := args.id
      config_id := args.config_id
      scope := args.scope
      name := args.name
      owner_id := args.owner_id
      parent_ids := args.parent_ids
      last_edit_date := args.last_edit_date
      edits := args.edits
      version := ver
      validity_period := args.validity_period
      edit_in_progress := args.edit_in_progress
      properties := p.2 }
  if !(PyVal.isNone default_value) && !(Store.contains store args.id) then
    let w := DataNode.write dn store default_value [] now
    ⟨w.1, w.2, calls⟩
  else
    ⟨dn, store, calls⟩

/-- `InMemoryDataNode._read`: `in_memory_storage.get(self.id)`. -/
def InMemoryDataNode._read (dn : DataNode) (store : Store) : PyVal :=
  Store.get store dn.id

/-- `InMemoryDataNode._write`: `in_memory_storage[self.id] = data`. -/
def InMemoryDataNode._write (dn : DataNode) (store : Store) (data : PyVal) :
    Store :=
  Store.insert store dn.id data

/-- `InMemoryDataNode._serialize_datanode_properties`. -/
def InMemoryDataNode._serialize_datanode_properties
    (datanode_properties : List (String × PyVal)) : List (String × PyVal) :=
  datanode_properties

/-- `InMemoryDataNode._deserialize_datanode_model_properties`. -/
def InMemoryDataNode._deserialize_datanode_model_properties
    (datanode_model_properties : List (String × PyVal)) :
    List (String × PyVal) :=
  datanode_model_properties

/-- `InMemoryDataNode.storage_type`. -/
def InMemoryDataNode.storage_type : String := "in_memory"

/-! Concrete fixtures used by witnesses and counterexamples. -/

/-- A backend store with no entries. -/
def emptyStore : Store := fun _ => Option.none

/-- A backend store holding the value 42 for the sample node id. -/
def storeWith42 : Store :=
  fun k => if k = "DATANODE_sales_1" then some (PyVal.int 42) else Option.none

/-- Construction arguments with no optional field set: the shape of a plain
`InMemoryDataNode(config_id, scope, id)` call. -/
def baseArgs : InitArgs :=
  { config_id := "sales"
    scope := Scope.SCENARIO
    id := "DATANODE_sales_1"
    name := Option.none
    owner_id := Option.none
    parent_ids := []
    last_edit_date := Option.none
    edits := []
    version := some "1.0"
    validity_period := Option.none
    edit_in_progress := false
    properties := [] }

/-- A sample constructed node used to exercise `_read`/`_write` directly. -/
def sampleNode : DataNode :=
  (InMemoryDataNode.init baseArgs emptyStore "1.0" 0).node

/-- A second sample node with a distinct id. -/
def otherNode : DataNode :=
  (InMemoryDataNode.init { baseArgs with id := "DATANODE_sales_2" }
    emptyStore "1.0" 0).node

/-! Helper lemmas shared by the claim theorems. -/

/-- Looking up a key in a list from which every pair with that key was
filtered out yields nothing. -/
theorem lookup_filter_ne (props : List (String × PyVal)) :
    (props.filter (fun p => p.1 ≠ "default_data")).lookup "default_data" =
      Option.none := by
  induction props with
  | nil => rfl
  | cons hd tl ih =>
    by_cases h : hd.1 = "default_data"
    · have hp : (decide (hd.1 ≠ "default_data")) = false := by
        simp [h]
      rw [List.filter_cons, hp]
      simp only [Bool.false_eq_true, if_false]
      exact ih
    · have hp : (decide (hd.1 ≠ "default_data")) = true := by
        simp [h]
      have hb : ("default_data" == hd.1) = false :=
        beq_eq_false_iff_ne.mpr (fun e => h e.symm)
      rw [List.filter_cons, hp, if_pos rfl, List.lookup, hb]
      exact ih

/-- After `popDefault`, the remaining property mapping has no binding for
`default_data`. -/
theorem popDefault_no_default (props : List (String × PyVal)) :
    ((popDefault props).2).lookup "default_data" = Option.none := by
  unfold popDefault
  cases h : props.lookup "default_data" with
  | none => simpa [h] using h
  | some v => simpa [h] using lookup_filter_ne props

/-- The properties of the constructed node are exactly the popped property
mapping, in both branches of the seeding guard. -/
theorem init_properties_eq (args : InitArgs) (store : Store)
    (latestVersion : String) (now : Nat) :
    (InMemoryDataNode.init args store latestVersion now).node.properties =
      (popDefault args.properties).2 := by
  unfold InMemoryDataNode.init DataNode.write
  split <;> (dsimp only; split <;> rfl)

/-- The constructed node keeps the id it was given. -/
theorem init_id_eq (args : InitArgs) (store : Store)
    (latestVersion : String) (now : Nat) :
    (InMemoryDataNode.init args store latestVersion now).node.id = args.id := by
  unfold InMemoryDataNode.init DataNode.write
  split <;> (dsimp only; split <;> rfl)

/-- The number of version-resolution calls made by construction: one exactly
when the supplied `version` is falsy. -/
theorem init_versionCalls_eq (args : InitArgs) (store : Store)
    (latestVersion : String) (now : Nat) :
    (InMemoryDataNode.init args store latestVersion now).versionCalls =
      if strTruthy args.version then 0 else 1 := by
  unfold InMemoryDataNode.init DataNode.write
  split <;> (dsimp only; split <;> rfl)

/-- The version of the constructed node: the supplied string when truthy,
the collaborator's report otherwise. -/
theorem init_version_eq (args : InitArgs) (store : Store)
    (latestVersion : String) (now : Nat) :
    (InMemoryDataNode.init args store latestVersion now).node.version =
      if strTruthy args.version then args.version.getD "" else latestVersion := by
  unfold InMemoryDataNode.init DataNode.write
  split <;> (dsimp only; split <;> rfl)

/-! Claim theorems. -/

/-- C5: for every node and every storable value `X`, `_write(X)` followed by
`_read()` on the same node returns `X`. -/
theorem write_read_roundtrip (dn : DataNode) (store : Store) (X : PyVal) :
    InMemoryDataNode._read dn (InMemoryDataNode._write dn store X) = X := by
  simp [InMemoryDataNode._read, InMemoryDataNode._write, Store.get,
    Store.insert]

/-- C7: `_write` unconditionally replaces the store entry for the node's id
(the entry becomes exactly the written value, whatever was there before), and
after `_write(X)` then `_write(Y)`, `_read()` returns `Y`. -/
theorem write_unconditionally_overwrites (dn : DataNode) (store : Store)
    (X Y : PyVal) :
    (InMemoryDataNode._write dn store X) dn.id = some X ∧
    InMemoryDataNode._read dn
      (InMemoryDataNode._write dn (InMemoryDataNode._write dn store X) Y) =
        Y := by
  refine ⟨?_, ?_⟩ <;>
    simp [InMemoryDataNode._read, InMemoryDataNode._write, Store.get,
      Store.insert]

/-- C8: the property (de)serialization hooks of the in-memory backend are
identity transforms, hence round-trip exactly. -/
theorem serialization_hooks_identity (d : List (String × PyVal)) :
    InMemoryDataNode._serialize_datanode_properties d = d ∧
    InMemoryDataNode._deserialize_datanode_model_properties d = d ∧
    InMemoryDataNode._deserialize_datanode_model_properties
      (InMemoryDataNode._serialize_datanode_properties d) = d :=
  ⟨rfl, rfl, rfl⟩

/-- C4: for every construction, the stored property set of the constructed
node has no binding for the reserved key `default_data`. -/
theorem default_data_not_persisted (args : InitArgs) (store : Store)
    (latestVersion : String) (now : Nat) :
    ((InMemoryDataNode.init args store latestVersion now).node.properties).lookup
      "default_data" = Option.none := by
  rw [init_properties_eq]
  exact popDefault_no_default args.properties

/-- C6: `_read` on a node whose id has no entry in the backend store returns
Python `None`; the embedding is a total function of its inputs, so absence of
data is a normal return, not an exception. -/
theorem read_never_written (dn : DataNode) (store : Store)
    (h : store dn.id = Option.none) :
    InMemoryDataNode._read dn store = PyVal.none := by
  simp [InMemoryDataNode._read, Store.get, h]

/-- Witness for C6 at the sample node and the empty store. -/
theorem read_never_written_witness :
    emptyStore sampleNode.id = Option.none ∧
    InMemoryDataNode._read sampleNode emptyStore = PyVal.none :=
  ⟨rfl, read_never_written sampleNode emptyStore rfl⟩

/-- C10: a `_write` through one node leaves the store entry for any other
node's id unchanged, and sets exactly the entry for the writing node's id to
the written value. -/
theorem write_frame (dn1 dn2 : DataNode) (store : Store) (X : PyVal)
    (h : dn1.id ≠ dn2.id) :
    (InMemoryDataNode._write dn1 store X) dn2.id = store dn2.id ∧
    (InMemoryDataNode._write dn1 store X) dn1.id = some X := by
  refine ⟨?_, ?_⟩
  · show (if dn2.id = dn1.id then some X else store dn2.id) = store dn2.id
    exact if_neg (fun e => h e.symm)
  · show (if dn1.id = dn1.id then some X else store dn1.id) = some X
    exact if_pos rfl

/-- Witness for C10 at the two sample nodes with distinct ids. -/
theorem write_frame_witness :
    sampleNode.id ≠ otherNode.id ∧
    ((InMemoryDataNode._write sampleNode emptyStore (PyVal.int 5))
        otherNode.id = emptyStore otherNode.id ∧
      (InMemoryDataNode._write sampleNode emptyStore (PyVal.int 5))
        sampleNode.id = some (PyVal.int 5)) :=
  ⟨by decide,
    write_frame sampleNode otherNode emptyStore (PyVal.int 5) (by decide)⟩

/-- C2: constructing with `default_data` present while the store already has
an entry for the node's id performs no implicit write: the store is returned
unchanged (so the existing value is untouched) and the edits are exactly the
supplied ones. -/
theorem existing_entry_not_overwritten (args : InitArgs) (store : Store)
    (latestVersion : String) (now : Nat) (v : PyVal)
    (hd : args.properties.lookup "default_data" = some v)
    (hs : Store.contains store args.id = true) :
    (InMemoryDataNode.init args store latestVersion now).store = store ∧
    (InMemoryDataNode.init args store latestVersion now).node.edits =
      args.edits := by
  unfold InMemoryDataNode.init DataNode.write
  dsimp only
  simp [hs]

/-- Construction arguments carrying a `default_data` property, used by
witnesses for the seeding-guard claims. -/
def argsWithDefault : InitArgs :=
  { baseArgs with properties := [("default_data", PyVal.int 7)] }

/-- Witness for C2: the store already holds 42 for the node's id, so the
default 7 is not written. -/
theorem existing_entry_not_overwritten_witness :
    (argsWithDefault.properties.lookup "default_data" = some (PyVal.int 7) ∧
      Store.contains storeWith42 argsWithDefault.id = true) ∧
    ((InMemoryDataNode.init argsWithDefault storeWith42 "1.0" 3).store =
        storeWith42 ∧
      (InMemoryDataNode.init argsWithDefault storeWith42 "1.0" 3).node.edits =
        argsWithDefault.edits) :=
  ⟨⟨rfl, rfl⟩,
    existing_entry_not_overwritten argsWithDefault storeWith42 "1.0" 3
      (PyVal.int 7) rfl rfl⟩

/-- Construction arguments whose `default_data` property is Python `None`. -/
def argsNoneDefault : InitArgs :=
  { baseArgs with properties := [("default_data", PyVal.none)] }

/-- C9: constructing with `default_data` bound to `None` performs no seeding
write even when the store has no entry for the node's id: the store is
unchanged and the edits stay empty. -/
theorem none_default_no_seed (args : InitArgs) (store : Store)
    (latestVersion : String) (now : Nat)
    (hd : args.properties.lookup "default_data" = some PyVal.none)
    (hs : store args.id = Option.none) (he : args.edits = []) :
    (InMemoryDataNode.init args store latestVersion now).store = store ∧
    (InMemoryDataNode.init args store latestVersion now).node.edits = [] := by
  unfold InMemoryDataNode.init DataNode.write
  dsimp only
  simp [popDefault, hd, PyVal.isNone, he]

/-- Witness for C9 at a `None` default and the empty store. -/
theorem none_default_no_seed_witness :
    (argsNoneDefault.properties.lookup "default_data" = some PyVal.none ∧
      emptyStore argsNoneDefault.id = Option.none ∧
      argsNoneDefault.edits = []) ∧
    ((InMemoryDataNode.init argsNoneDefault emptyStore "1.0" 0).store =
        emptyStore ∧
      (InMemoryDataNode.init argsNoneDefault emptyStore "1.0" 0).node.edits =
        []) :=
  ⟨⟨rfl, rfl, rfl⟩,
    none_default_no_seed argsNoneDefault emptyStore "1.0" 0 rfl rfl rfl⟩

/-- Construction arguments with a non-`None` default but a supplied prior
edit record. -/
def argsPriorEdit : InitArgs :=
  { baseArgs with
    properties := [("default_data", PyVal.int 1)]
    edits := [⟨0, Option.none, []⟩] }

/-- C1 as stated fails: with `default_data` bound to `None` and an empty
store, construction performs no write and `edits` stays at length 0 rather
than 1; and with a non-`None` default but one supplied prior edit, `edits`
ends at length 2 rather than 1. -/
theorem default_data_seed_cex :
    (argsNoneDefault.properties.lookup "default_data" = some PyVal.none ∧
      emptyStore argsNoneDefault.id = Option.none ∧
      (InMemoryDataNode.init argsNoneDefault emptyStore "1.0"
          0).node.edits.length = 0) ∧
    (argsPriorEdit.properties.lookup "default_data" = some (PyVal.int 1) ∧
      emptyStore argsPriorEdit.id = Option.none ∧
      (InMemoryDataNode.init argsPriorEdit emptyStore "1.0"
          0).node.edits.length = 2) :=
  ⟨⟨rfl, rfl, rfl⟩, ⟨rfl, rfl, rfl⟩⟩

/-- C1 (amended): constructing with `default_data` bound to a non-`None`
value `v`, no prior store entry for the node's id, and no supplied prior
edits performs the seeding write: the store holds `v` at the node's id,
`_read` right after construction returns `v`, and `edits` has length 1. -/
theorem default_data_seeds_fresh_node (args : InitArgs) (store : Store)
    (latestVersion : String) (now : Nat) (v : PyVal)
    (hd : args.properties.lookup "default_data" = some v)
    (hv : PyVal.isNone v = false)
    (hs : store args.id = Option.none)
    (he : args.edits = []) :
    (InMemoryDataNode.init args store latestVersion now).store args.id =
      some v ∧
    InMemoryDataNode._read
      (InMemoryDataNode.init args store latestVersion now).node
      (InMemoryDataNode.init args store latestVersion now).store = v ∧
    (InMemoryDataNode.init args store latestVersion now).node.edits.length =
      1 := by
  unfold InMemoryDataNode.init DataNode.write
  dsimp only
  simp [popDefault, hd, hv, Store.contains, hs, he, InMemoryDataNode._read,
    Store.get, Store.insert]

/-- The default value used by the seeding witness: the list `[1, 2, 3]` of
the spec's example scenario. -/
def seedVal : PyVal := PyVal.list [PyVal.int 1, PyVal.int 2, PyVal.int 3]

/-- Construction arguments carrying the example default `[1, 2, 3]`. -/
def argsSeed : InitArgs :=
  { baseArgs with properties := [("default_data", seedVal)] }

/-- Witness for the amended C1 at the spec's example default `[1, 2, 3]`. -/
theorem default_data_seeds_fresh_node_witness :
    (argsSeed.properties.lookup "default_data" = some seedVal ∧
      PyVal.isNone seedVal = false ∧
      emptyStore argsSeed.id = Option.none ∧ argsSeed.edits = []) ∧
    ((InMemoryDataNode.init argsSeed emptyStore "1.0" 7).store argsSeed.id =
        some seedVal ∧
      InMemoryDataNode._read
        (InMemoryDataNode.init argsSeed emptyStore "1.0" 7).node
        (InMemoryDataNode.init argsSeed emptyStore "1.0" 7).store = seedVal ∧
      (InMemoryDataNode.init argsSeed emptyStore "1.0" 7).node.edits.length =
        1) :=
  ⟨⟨rfl, rfl, rfl, rfl⟩,
    default_data_seeds_fresh_node argsSeed emptyStore "1.0" 7 seedVal rfl rfl
      rfl rfl⟩

/-- Construction arguments supplying the empty string as `version`. -/
def argsEmptyVer : InitArgs := { baseArgs with version := some "" }

/-- C3 as stated fails: with the empty string supplied as `version`,
Python's `or` treats it as falsy, so the collaborator is invoked once and its
report ("2.0" here) becomes the node's version instead of the supplied "". -/
theorem version_empty_string_cex :
    argsEmptyVer.version = some "" ∧
    (InMemoryDataNode.init argsEmptyVer emptyStore "2.0" 0).node.version =
      "2.0" ∧
    (InMemoryDataNode.init argsEmptyVer emptyStore "2.0" 0).node.version ≠
      "" ∧
    (InMemoryDataNode.init argsEmptyVer emptyStore "2.0" 0).versionCalls =
      1 :=
  ⟨rfl, rfl, by decide, rfl⟩

/-- C3 (amended): when a non-empty version string is supplied, the node
keeps it and the collaborator is not invoked; when the version is
unspecified (and likewise for the falsy empty string, by the
counterexample), the collaborator is invoked exactly once and its report
becomes the node's version. -/
theorem version_resolution (args : InitArgs) (store : Store)
    (latestVersion : String) (now : Nat) (s : String)
    (h1 : args.version = some s) (h2 : s ≠ "") :
    (InMemoryDataNode.init args store latestVersion now).node.version = s ∧
    (InMemoryDataNode.init args store latestVersion now).versionCalls = 0 ∧
    (InMemoryDataNode.init { args with version := Option.none } store
        latestVersion now).versionCalls = 1 ∧
    (InMemoryDataNode.init { args with version := Option.none } store
        latestVersion now).node.version = latestVersion := by
  rw [init_version_eq, init_versionCalls_eq, init_versionCalls_eq,
    init_version_eq]
  simp [strTruthy, h1, h2]

/-- Witness for the amended C3 at the supplied version "1.0" and the
collaborator report "9.9". -/
theorem version_resolution_witness :
    (baseArgs.version = some "1.0" ∧ ("1.0" : String) ≠ "") ∧
    ((InMemoryDataNode.init baseArgs emptyStore "9.9" 0).node.version =
        "1.0" ∧
      (InMemoryDataNode.init baseArgs emptyStore "9.9" 0).versionCalls = 0 ∧
      (InMemoryDataNode.init { baseArgs with version := Option.none }
          emptyStore "9.9" 0).versionCalls = 1 ∧
      (InMemoryDataNode.init { baseArgs with version := Option.none }
          emptyStore "9.9" 0).node.version = "9.9") :=
  ⟨⟨rfl, by decide⟩,
    version_resolution baseArgs emptyStore "9.9" 0 "1.0" rfl (by decide)⟩

end Taipy
